import Mathlib

/-!
Shallow embedding of the video tracker core of `video-core-js`.

The repository ships `src/videotracker.js` (the `VideoTracker` layer) in
full; the collaborators it builds on (`videotrackerstate.js`, `tracker.js`,
`chrono.js`, `log.js`, `emitter.js`) are declared by `src/index.js` but their
code is not part of the source tree given here, so those parts are modelled
from the specification (each such definition carries a doc comment starting
with `Modelled from the spec:`). All `send*` operations, `getRenditionShift`,
`buildBufferAttributes`, `getViewId`/`getViewSession`, `setAdsTracker` and
`funnelAdEvents` are translated directly from `src/videotracker.js`.

Machine conventions: timestamps are natural numbers of milliseconds threaded
through each operation as a `now` argument; JavaScript attribute values are
the inductive `JsVal` (absent keys are `Option.none`, JS `null` is
`JsVal.null`); an attribute bag is an association list with replace-or-append
assignment, mirroring JS object field update.
-/

namespace VideoCoreJs

/-- A JavaScript scalar attribute value as stored in an attribute bag. -/
inductive JsVal where
  | str (s : String)
  | num (n : Int)
  | bool (b : Bool)
  | null
deriving Repr, DecidableEq

/-- JavaScript truthiness of a value (`!v` in the source negates this). -/
def JsVal.truthy : JsVal → Bool
  | .str s => !s.isEmpty
  | .num n => n != 0
  | .bool b => b
  | .null => false

/-- An attribute bag: a JS object used as a map from field names to values. -/
abbrev AttributeBag := List (String × JsVal)

/-- Field read `att.k`: `none` corresponds to JS `undefined`. -/
def attGet : AttributeBag → String → Option JsVal
  | [], _ => none
  | (k', v) :: rest, k => if k' = k then some v else attGet rest k

/-- Field assignment `att.k = v` (replace an existing binding or append). -/
def attSet : AttributeBag → String → JsVal → AttributeBag
  | [], k, v => [(k, v)]
  | (k', v') :: rest, k, v =>
    if k' = k then (k, v) :: rest else (k', v') :: attSet rest k v

/-- Truthiness of a field that may be absent: `!att.k` negates this. -/
def jsTruthy : Option JsVal → Bool
  | none => false
  | some v => v.truthy

/-- The loose JS test `v != null`, false exactly for `undefined` and `null`. -/
def jsNeNull : Option JsVal → Bool
  | none => false
  | some .null => false
  | some _ => true

/-- Modelled from the spec: `Chrono` (§4.1) is a monotonic stopwatch; the
source file `chrono.js` is not in the tree. It stores the reference instant;
`getDeltaTime` returns the non-negative elapsed milliseconds since it. -/
structure Chrono where
  startTime : Nat
deriving Repr, DecidableEq

/-- Modelled from the spec: `mark()` resets the reference instant to now. -/
def Chrono.start (now : Nat) : Chrono := ⟨now⟩

/-- Modelled from the spec: elapsed milliseconds since the last mark, as a
non-negative integer (the clock is monotonic, so `now ≥ startTime` on every
real trace; `Nat` subtraction renders the non-negativity). -/
def Chrono.getDeltaTime (c : Chrono) (now : Nat) : Nat := now - c.startTime

/-- Modelled from the spec: `TrackerState` (§4.2), the finite-state-machine
core whose source file `videotrackerstate.js` is not in the tree. Phases are
rendered as the boolean sub-state flags that `videotracker.js` reads
(`isRequested`, `isStarted`, `isPlaying`, ...), plus the accumulators and
time marks the spec names. -/
structure TrackerState where
  isAd : Bool
  isPlayerReady : Bool
  isRequested : Bool
  isStarted : Bool
  isPlaying : Bool
  isPaused : Bool
  isBuffering : Bool
  isSeeking : Bool
  isAdBreak : Bool
  initialBufferingHappened : Bool
  totalPlaytime : Nat
  totalAdPlaytime : Nat
  viewSession : String
  viewCount : Nat
  timeSinceRequested : Chrono
  timeSinceStarted : Chrono
  timeSincePaused : Chrono
  timeSinceResumed : Chrono
  timeSinceBufferBegin : Chrono
  timeSinceSeekBegin : Chrono
  timeSinceSeekEnd : Chrono
  timeSinceAdBreakStart : Chrono
  timeSinceLastAdQuartile : Chrono
  timeSinceLastRenditionChange : Chrono
  timeSinceLastHeartbeat : Chrono
  timeSinceLastAd : Chrono
deriving Repr, DecidableEq

/-- Modelled from the spec: a freshly constructed state — `IDLE`, all flags
down, accumulators zero; the session id is generated once per instance
(opaque to consumers, §4.2), here a parameter. -/
def TrackerState.init (sessionId : String) : TrackerState :=
  { isAd := false
    isPlayerReady := false
    isRequested := false
    isStarted := false
    isPlaying := false
    isPaused := false
    isBuffering := false
    isSeeking := false
    isAdBreak := false
    initialBufferingHappened := false
    totalPlaytime := 0
    totalAdPlaytime := 0
    viewSession := sessionId
    viewCount := 0
    timeSinceRequested := ⟨0⟩
    timeSinceStarted := ⟨0⟩
    timeSincePaused := ⟨0⟩
    timeSinceResumed := ⟨0⟩
    timeSinceBufferBegin := ⟨0⟩
    timeSinceSeekBegin := ⟨0⟩
    timeSinceSeekEnd := ⟨0⟩
    timeSinceAdBreakStart := ⟨0⟩
    timeSinceLastAdQuartile := ⟨0⟩
    timeSinceLastRenditionChange := ⟨0⟩
    timeSinceLastHeartbeat := ⟨0⟩
    timeSinceLastAd := ⟨0⟩ }

/-- Modelled from the spec: sets the ad-role flag (§4.4, `setIsAd`). -/
def TrackerState.setIsAd (st : TrackerState) (b : Bool) : TrackerState :=
  { st with isAd := b }

/-- Modelled from the spec: the view session id is generated once and is
immutable thereafter (§3). -/
def TrackerState.getViewSession (st : TrackerState) : String := st.viewSession

/-- Modelled from the spec: a view id, stable for one view, derived from the
session id and the view counter (format opaque to consumers, §4.2). -/
def TrackerState.getViewId (st : TrackerState) : String :=
  st.viewSession ++ "-" ++ toString st.viewCount

/-- Modelled from the spec: `goViewCountUp()` issues the next view id (§4.2). -/
def TrackerState.goViewCountUp (st : TrackerState) : TrackerState :=
  { st with viewCount := st.viewCount + 1 }

/-- Modelled from the spec: guarded transition into `READY`; a duplicate call
returns `false` with no side effect (§4.2). -/
def TrackerState.goPlayerReady (st : TrackerState) (_now : Nat) :
    Bool × TrackerState :=
  if st.isPlayerReady then (false, st)
  else (true, { st with isPlayerReady := true })

/-- Modelled from the spec: `goRequest()` is valid from `READY`/`IDLE`/`ENDED`
(that is, whenever no request is in flight); it issues a new view id, marks
`timeSinceRequested` and moves to `REQUESTED` (§4.2). -/
def TrackerState.goRequest (st : TrackerState) (now : Nat) :
    Bool × TrackerState :=
  if st.isRequested then (false, st)
  else (true, { st with
                  isRequested := true
                  viewCount := st.viewCount + 1
                  timeSinceRequested := Chrono.start now })

/-- Modelled from the spec: `goStart()` is valid once per view after
`REQUESTED`; it marks `timeSinceStarted` and moves to `PLAYING` (§4.2). -/
def TrackerState.goStart (st : TrackerState) (now : Nat) :
    Bool × TrackerState :=
  if st.isRequested && !st.isStarted then
    (true, { st with
               isStarted := true
               isPlaying := true
               timeSinceStarted := Chrono.start now })
  else (false, st)

/-- Modelled from the spec: `goPause()` toggles `PLAYING → PAUSED` and marks
`timeSincePaused` for delta reporting (§4.2). -/
def TrackerState.goPause (st : TrackerState) (now : Nat) :
    Bool × TrackerState :=
  if st.isPlaying && !st.isPaused then
    (true, { st with
               isPlaying := false
               isPaused := true
               timeSincePaused := Chrono.start now })
  else (false, st)

/-- Modelled from the spec: `goResume()` toggles `PAUSED → PLAYING` and marks
`timeSinceResumed` (§4.2). -/
def TrackerState.goResume (st : TrackerState) (now : Nat) :
    Bool × TrackerState :=
  if st.isPaused then
    (true, { st with
               isPaused := false
               isPlaying := true
               timeSinceResumed := Chrono.start now })
  else (false, st)

/-- Modelled from the spec: `goBufferStart()` toggles into `BUFFERING`,
preserving the phase active immediately prior, and marks
`timeSinceBufferBegin` (§4.2). -/
def TrackerState.goBufferStart (st : TrackerState) (now : Nat) :
    Bool × TrackerState :=
  if st.isRequested && !st.isBuffering then
    (true, { st with
               isBuffering := true
               timeSinceBufferBegin := Chrono.start now })
  else (false, st)

/-- Modelled from the spec: `goBufferEnd()` toggles out of `BUFFERING` (§4.2). -/
def TrackerState.goBufferEnd (st : TrackerState) (_now : Nat) :
    Bool × TrackerState :=
  if st.isBuffering then (true, { st with isBuffering := false })
  else (false, st)

/-- Modelled from the spec: `goSeekStart()`, symmetric to buffering, marks
`timeSinceSeekBegin` (§4.2). -/
def TrackerState.goSeekStart (st : TrackerState) (now : Nat) :
    Bool × TrackerState :=
  if st.isRequested && !st.isSeeking then
    (true, { st with
               isSeeking := true
               timeSinceSeekBegin := Chrono.start now })
  else (false, st)

/-- Modelled from the spec: `goSeekEnd()` closes the seek and marks
`timeSinceSeekEnd` (§4.2). -/
def TrackerState.goSeekEnd (st : TrackerState) (now : Nat) :
    Bool × TrackerState :=
  if st.isSeeking then
    (true, { st with
               isSeeking := false
               timeSinceSeekEnd := Chrono.start now })
  else (false, st)

/-- Modelled from the spec: `goEnd()` is valid from any active sub-state and
returns to `ENDED`, dropping every active flag. The accompanying
`goViewCountUp()` call and the zeroing of `totalPlaytime` are performed by
the caller `sendEnd` (videotracker.js lines 552-553). -/
def TrackerState.goEnd (st : TrackerState) (_now : Nat) :
    Bool × TrackerState :=
  if st.isRequested then
    (true, { st with
               isRequested := false
               isStarted := false
               isPlaying := false
               isPaused := false
               isBuffering := false
               isSeeking := false })
  else (false, st)

/-- Modelled from the spec: `goAdBreakStart()` enters the `AD_BREAK`
super-state and records the `adBreakStart` mark (§4.2); the zeroing of
`totalAdPlaytime` is performed by the caller `sendAdBreakStart`
(videotracker.js line 765). -/
def TrackerState.goAdBreakStart (st : TrackerState) (now : Nat) :
    Bool × TrackerState :=
  if st.isAdBreak then (false, st)
  else (true, { st with
                  isAdBreak := true
                  timeSinceAdBreakStart := Chrono.start now })

/-- Modelled from the spec: `goAdBreakEnd()` leaves the `AD_BREAK`
super-state (§4.2). -/
def TrackerState.goAdBreakEnd (st : TrackerState) (_now : Nat) :
    Bool × TrackerState :=
  if st.isAdBreak then (true, { st with isAdBreak := false })
  else (false, st)

/-- Modelled from the spec: `goHeartbeat()` re-marks the heartbeat reference
time; heartbeats before a request are silently skipped (§4.2). -/
def TrackerState.goHeartbeat (st : TrackerState) (now : Nat) : TrackerState :=
  if st.isRequested then
    { st with timeSinceLastHeartbeat := Chrono.start now }
  else st

/-- Modelled from the spec: `goDownload()` is a side-channel operation that
always succeeds and does not alter the main phase (§4.2). -/
def TrackerState.goDownload (st : TrackerState) (_now : Nat) : TrackerState :=
  st

/-- Modelled from the spec: `goError()` does not change the phase, so further
terminal events can still fire (§4.2). -/
def TrackerState.goError (st : TrackerState) (_now : Nat) : TrackerState :=
  st

/-- Modelled from the spec: `goRenditionChange()` is a side-channel operation
that always succeeds; it re-marks the rendition-change time (§4.2). -/
def TrackerState.goRenditionChange (st : TrackerState) (now : Nat) :
    TrackerState :=
  { st with timeSinceLastRenditionChange := Chrono.start now }

/-- Modelled from the spec: `goAdQuartile()` is a side-channel operation that
always succeeds; it re-marks the quartile time (§4.2). -/
def TrackerState.goAdQuartile (st : TrackerState) (now : Nat) : TrackerState :=
  { st with timeSinceLastAdQuartile := Chrono.start now }

/-- Modelled from the spec: the parent's "last ad" bookkeeping, advanced when
a child ad ends (§4.4); rendered as re-marking the last-ad time. -/
def TrackerState.goLastAd (st : TrackerState) (now : Nat) : TrackerState :=
  { st with timeSinceLastAd := Chrono.start now }

/-- Modelled from the spec: `calculateBufferType(isInitialBuffering)` returns
`initial` if the flag is set, `seek` if a seek-start preceded this buffering
with no intervening playback (an open seek, rendered by the `isSeeking`
sub-state), otherwise `other` (§4.2). -/
def TrackerState.calculateBufferType (st : TrackerState)
    (isInitialBuffering : Bool) : String :=
  if isInitialBuffering then "initial"
  else if st.isSeeking then "seek"
  else "other"

/-! The event catalogue `VideoTracker.Events` (videotracker.js lines 826-894). -/

namespace Events

def PLAYER_READY : String := "PLAYER_READY"

def DOWNLOAD : String := "DOWNLOAD"

def ERROR : String := "ERROR"

def CONTENT_REQUEST : String := "CONTENT_REQUEST"

def CONTENT_START : String := "CONTENT_START"

def CONTENT_END : String := "CONTENT_END"

def CONTENT_PAUSE : String := "CONTENT_PAUSE"

def CONTENT_RESUME : String := "CONTENT_RESUME"

def CONTENT_SEEK_START : String := "CONTENT_SEEK_START"

def CONTENT_SEEK_END : String := "CONTENT_SEEK_END"

def CONTENT_BUFFER_START : String := "CONTENT_BUFFER_START"

def CONTENT_BUFFER_END : String := "CONTENT_BUFFER_END"

def CONTENT_HEARTBEAT : String := "CONTENT_HEARTBEAT"

def CONTENT_RENDITION_CHANGE : String := "CONTENT_RENDITION_CHANGE"

def CONTENT_ERROR : String := "CONTENT_ERROR"

def AD_REQUEST : String := "AD_REQUEST"

def AD_START : String := "AD_START"

def AD_END : String := "AD_END"

def AD_PAUSE : String := "AD_PAUSE"

def AD_RESUME : String := "AD_RESUME"

def AD_SEEK_START : String := "AD_SEEK_START"

def AD_SEEK_END : String := "AD_SEEK_END"

def AD_BUFFER_START : String := "AD_BUFFER_START"

def AD_BUFFER_END : String := "AD_BUFFER_END"

def AD_HEARTBEAT : String := "AD_HEARTBEAT"

def AD_RENDITION_CHANGE : String := "AD_RENDITION_CHANGE"

def AD_ERROR : String := "AD_ERROR"

def AD_BREAK_START : String := "AD_BREAK_START"

def AD_BREAK_END : String := "AD_BREAK_END"

def AD_QUARTILE : String := "AD_QUARTILE"

def AD_CLICK : String := "AD_CLICK"

end Events

/-- An `(eventName, attributes)` pair delivered to the sink. Per the spec
(§4.3, §6) `Tracker.send` delivers the pair to the abstract sink and to the
tracker's own event subscribers, fire-and-forget. -/
structure EmittedEvent where
  type : String
  data : AttributeBag
deriving Repr, DecidableEq

/-- A `VideoTracker` instance: its `TrackerState`, the private caches of
videotracker.js (`_lastBufferType` line 44, `_lastRendition` /
`_lastAdRendition` lines 260-264), the `parentTracker` link (the parent's
state, which child operations mutate through the reference), and the
base-tracker heartbeat flag (spec §4.3). -/
structure VideoTracker where
  state : TrackerState
  lastBufferType : Option JsVal
  lastRendition : Option Int
  lastAdRendition : Option Int
  parentTracker : Option TrackerState
  heartbeatRunning : Bool
deriving Repr, DecidableEq

/-- A freshly constructed tracker (videotracker.js lines 24-51):
`_lastBufferType` starts as JS `null`, the rendition caches start
undefined, no parent link, no heartbeat. -/
def VideoTracker.init (sessionId : String) : VideoTracker :=
  { state := TrackerState.init sessionId
    lastBufferType := some .null
    lastRendition := none
    lastAdRendition := none
    parentTracker := none
    heartbeatRunning := false }

/-- `this.isAd()` (videotracker.js lines 97-99). -/
def VideoTracker.isAd (t : VideoTracker) : Bool := t.state.isAd

/-- The outcome of one `send*` call: the updated tracker, the events the
tracker delivered through `Tracker.send`, and the warnings logged. -/
structure SendResult where
  tracker : VideoTracker
  events : List EmittedEvent
  warns : List String
deriving Repr, DecidableEq

/-- A rejected guard: no event, no warning, no state change (spec §7(a)). -/
def SendResult.noop (t : VideoTracker) : SendResult := ⟨t, [], []⟩

/-- `sendPlayerReady` (videotracker.js lines 489-494). -/
def VideoTracker.sendPlayerReady (t : VideoTracker) (att : AttributeBag)
    (now : Nat) : SendResult :=
  let r := t.state.goPlayerReady now
  if r.1 then
    { tracker := { t with state := r.2 }
      events := [⟨Events.PLAYER_READY, att⟩]
      warns := [] }
  else SendResult.noop t

/-- `sendRequest` (videotracker.js lines 502-509): on an accepted
`goRequest`, emits `AD_REQUEST` or `CONTENT_REQUEST`, starts the heartbeat
and calls `goHeartbeat`. -/
def VideoTracker.sendRequest (t : VideoTracker) (att : AttributeBag)
    (now : Nat) : SendResult :=
  let r := t.state.goRequest now
  if r.1 then
    let ev := if r.2.isAd then Events.AD_REQUEST else Events.CONTENT_REQUEST
    let st := r.2.goHeartbeat now
    { tracker := { t with state := st, heartbeatRunning := true }
      events := [⟨ev, att⟩]
      warns := [] }
  else SendResult.noop t

/-- `sendStart` (videotracker.js lines 516-527): for an ad tracker with a
parent, clears the parent's `isPlaying` flag. -/
def VideoTracker.sendStart (t : VideoTracker) (att : AttributeBag)
    (now : Nat) : SendResult :=
  let r := t.state.goStart now
  if r.1 then
    if r.2.isAd then
      let pt := Option.map (fun p => { p with isPlaying := false })
        t.parentTracker
      { tracker := { t with state := r.2, parentTracker := pt }
        events := [⟨Events.AD_START, att⟩]
        warns := [] }
    else
      { tracker := { t with state := r.2 }
        events := [⟨Events.CONTENT_START, att⟩]
        warns := [] }
  else SendResult.noop t

/-- `sendEnd` (videotracker.js lines 535-555): on an accepted `goEnd`, adds
the request/start deltas, restores the parent's `isPlaying` flag and
advances the parent's last-ad bookkeeping for ads, stops the heartbeat,
emits `AD_END`/`CONTENT_END`, then calls `goViewCountUp` and zeroes
`totalPlaytime` (lines 552-553). -/
def VideoTracker.sendEnd (t : VideoTracker) (att : AttributeBag)
    (now : Nat) : SendResult :=
  let r := t.state.goEnd now
  if r.1 then
    let st := r.2
    if st.isAd then
      let att := attSet att "timeSinceAdRequested"
        (.num (Int.ofNat (st.timeSinceRequested.getDeltaTime now)))
      let att := attSet att "timeSinceAdStarted"
        (.num (Int.ofNat (st.timeSinceStarted.getDeltaTime now)))
      let pt := Option.map (fun p => { p with isPlaying := true })
        t.parentTracker
      let pt := Option.map (fun p => p.goLastAd now) pt
      let st := st.goViewCountUp
      let st := { st with totalPlaytime := 0 }
      { tracker :=
          { t with state := st, parentTracker := pt, heartbeatRunning := false }
        events := [⟨Events.AD_END, att⟩]
        warns := [] }
    else
      let att := attSet att "timeSinceRequested"
        (.num (Int.ofNat (st.timeSinceRequested.getDeltaTime now)))
      let att := attSet att "timeSinceStarted"
        (.num (Int.ofNat (st.timeSinceStarted.getDeltaTime now)))
      let st := st.goViewCountUp
      let st := { st with totalPlaytime := 0 }
      { tracker := { t with state := st, heartbeatRunning := false }
        events := [⟨Events.CONTENT_END, att⟩]
        warns := [] }
  else SendResult.noop t

/-- `sendPause` (videotracker.js lines 562-567). -/
def VideoTracker.sendPause (t : VideoTracker) (att : AttributeBag)
    (now : Nat) : SendResult :=
  let r := t.state.goPause now
  if r.1 then
    let ev := if r.2.isAd then Events.AD_PAUSE else Events.CONTENT_PAUSE
    { tracker := { t with state := r.2 }
      events := [⟨ev, att⟩]
      warns := [] }
  else SendResult.noop t

/-- `sendResume` (videotracker.js lines 574-587): adds the pause delta. -/
def VideoTracker.sendResume (t : VideoTracker) (att : AttributeBag)
    (now : Nat) : SendResult :=
  let r := t.state.goResume now
  if r.1 then
    let st := r.2
    if st.isAd then
      let att := attSet att "timeSinceAdPaused"
        (.num (Int.ofNat (st.timeSincePaused.getDeltaTime now)))
      { tracker := { t with state := st }
        events := [⟨Events.AD_RESUME, att⟩]
        warns := [] }
    else
      let att := attSet att "timeSincePaused"
        (.num (Int.ofNat (st.timeSincePaused.getDeltaTime now)))
      { tracker := { t with state := st }
        events := [⟨Events.CONTENT_RESUME, att⟩]
        warns := [] }
  else SendResult.noop t

/-- The `timeSinceStarted == undefined || timeSinceStarted < 100` test of
`buildBufferAttributes` (videotracker.js line 640); JS loose equality makes
`null == undefined` true, and only numeric or absent values reach this test
on the send paths. -/
def jsUndefOrLt100 : Option JsVal → Bool
  | none => true
  | some .null => true
  | some (.num n) => n < 100
  | some _ => false

/-- The `isInitialBuffering` flag computed by `buildBufferAttributes`
(videotracker.js lines 640-645): initial when the episode begins within the
100ms threshold of start (or no start delta is supplied) and no buffering
has yet completed for this view. -/
def isInitialBuffering (st : TrackerState) (att : AttributeBag) : Bool :=
  jsUndefOrLt100 (attGet att "timeSinceStarted") && !st.initialBufferingHappened

/-- `buildBufferAttributes` (videotracker.js lines 639-653): classifies the
buffering episode and adds the resume/seek-end deltas. -/
def VideoTracker.buildBufferAttributes (t : VideoTracker) (att : AttributeBag)
    (now : Nat) : AttributeBag :=
  let isInitial := isInitialBuffering t.state att
  let att := attSet att "isInitialBuffering" (.bool isInitial)
  let att := attSet att "bufferType"
    (.str (t.state.calculateBufferType isInitial))
  let att := attSet att "timeSinceResumed"
    (.num (Int.ofNat (t.state.timeSinceResumed.getDeltaTime now)))
  let att := attSet att "timeSinceSeekEnd"
    (.num (Int.ofNat (t.state.timeSinceSeekEnd.getDeltaTime now)))
  att

/-- `sendBufferStart` (videotracker.js lines 594-609): on an accepted
`goBufferStart`, classifies the episode and caches `att.bufferType` into
`_lastBufferType` (line 605). -/
def VideoTracker.sendBufferStart (t : VideoTracker) (att : AttributeBag)
    (now : Nat) : SendResult :=
  let r := t.state.goBufferStart now
  if r.1 then
    let ev := if r.2.isAd then Events.AD_BUFFER_START
      else Events.CONTENT_BUFFER_START
    let t' : VideoTracker := { t with state := r.2 }
    let att := t'.buildBufferAttributes att now
    { tracker := { t' with lastBufferType := attGet att "bufferType" }
      events := [⟨ev, att⟩]
      warns := [] }
  else SendResult.noop t

/-- `sendBufferEnd` (videotracker.js lines 616-637): on an accepted
`goBufferEnd`, adds the buffer-begin delta, rebuilds the buffer attributes,
then overrides `att.bufferType` with the value cached at the last
`BUFFER_START` when that cache is non-null (lines 630-632), and finally
records that an initial buffering has happened (line 635). -/
def VideoTracker.sendBufferEnd (t : VideoTracker) (att : AttributeBag)
    (now : Nat) : SendResult :=
  let r := t.state.goBufferEnd now
  if r.1 then
    let st := r.2
    let evAtt : String × AttributeBag :=
      if st.isAd then
        (Events.AD_BUFFER_END, attSet att "timeSinceAdBufferBegin"
          (.num (Int.ofNat (st.timeSinceBufferBegin.getDeltaTime now))))
      else
        (Events.CONTENT_BUFFER_END, attSet att "timeSinceBufferBegin"
          (.num (Int.ofNat (st.timeSinceBufferBegin.getDeltaTime now))))
    let t' : VideoTracker := { t with state := st }
    let att := t'.buildBufferAttributes evAtt.2 now
    let att :=
      match t.lastBufferType with
      | some v => if v = .null then att else attSet att "bufferType" v
      | none => att
    let st := { st with initialBufferingHappened := true }
    { tracker := { t with state := st }
      events := [⟨evAtt.1, att⟩]
      warns := [] }
  else SendResult.noop t

/-- `sendSeekStart` (videotracker.js lines 660-670). -/
def VideoTracker.sendSeekStart (t : VideoTracker) (att : AttributeBag)
    (now : Nat) : SendResult :=
  let r := t.state.goSeekStart now
  if r.1 then
    let ev := if r.2.isAd then Events.AD_SEEK_START
      else Events.CONTENT_SEEK_START
    { tracker := { t with state := r.2 }
      events := [⟨ev, att⟩]
      warns := [] }
  else SendResult.noop t

/-- `sendSeekEnd` (videotracker.js lines 677-690): adds the seek-begin
delta. -/
def VideoTracker.sendSeekEnd (t : VideoTracker) (att : AttributeBag)
    (now : Nat) : SendResult :=
  let r := t.state.goSeekEnd now
  if r.1 then
    let st := r.2
    if st.isAd then
      let att := attSet att "timeSinceAdSeekBegin"
        (.num (Int.ofNat (st.timeSinceSeekBegin.getDeltaTime now)))
      { tracker := { t with state := st }
        events := [⟨Events.AD_SEEK_END, att⟩]
        warns := [] }
    else
      let att := attSet att "timeSinceSeekBegin"
        (.num (Int.ofNat (st.timeSinceSeekBegin.getDeltaTime now)))
      { tracker := { t with state := st }
        events := [⟨Events.CONTENT_SEEK_END, att⟩]
        warns := [] }
  else SendResult.noop t

/-- `sendDownload` (videotracker.js lines 698-703): warns when `att.state`
is missing, still emits `DOWNLOAD` with the bag unchanged, then calls the
always-succeeding side-channel `goDownload`. -/
def VideoTracker.sendDownload (t : VideoTracker) (att : AttributeBag)
    (now : Nat) : SendResult :=
  let warns :=
    if jsTruthy (attGet att "state") then []
    else ["Called sendDownload without \x7b state: xxxxx \x7d."]
  { tracker := { t with state := t.state.goDownload now }
    events := [⟨Events.DOWNLOAD, att⟩]
    warns := warns }

/-- `sendError` (videotracker.js lines 710-716): stamps `att.isAd`, calls
the phase-preserving `goError`, emits `AD_ERROR`/`CONTENT_ERROR`. -/
def VideoTracker.sendError (t : VideoTracker) (att : AttributeBag)
    (now : Nat) : SendResult :=
  let att := attSet att "isAd" (.bool t.state.isAd)
  let st := t.state.goError now
  let ev := if t.state.isAd then Events.AD_ERROR else Events.CONTENT_ERROR
  { tracker := { t with state := st }
    events := [⟨ev, att⟩]
    warns := [] }

/-- The shift verdict of `getRenditionShift`. -/
inductive Shift where
  | up
  | down
deriving Repr, DecidableEq

/-- A `Shift` verdict as the JS value assigned to `att.shift`. -/
def shiftToJs : Option Shift → JsVal
  | none => .null
  | some .up => .str "up"
  | some .down => .str "down"

/-- JS truthiness of an optional numeric bitrate (`!current` in the source):
absent values and `0` are falsy. -/
def jsTruthyInt : Option Int → Bool
  | none => false
  | some n => n != 0

/-- `getRenditionShift` (videotracker.js lines 256-278): compares the
current rendition bitrate (supplied by the polymorphic
`getRenditionBitrate` getter, here a parameter) against the last recorded
one for the matching role; when `saveNewRendition` is set, stores the
current bitrate as that role's new baseline. -/
def VideoTracker.getRenditionShift (t : VideoTracker) (current : Option Int)
    (saveNewRendition : Bool) : VideoTracker × Option Shift :=
  let last := if t.state.isAd then t.lastAdRendition else t.lastRendition
  let t :=
    if saveNewRendition then
      if t.state.isAd then { t with lastAdRendition := current }
      else { t with lastRendition := current }
    else t
  if !jsTruthyInt current || !jsTruthyInt last then (t, none)
  else if current.getD 0 > last.getD 0 then (t, some .up)
  else if current.getD 0 < last.getD 0 then (t, some .down)
  else (t, none)

/-- The "last recorded bitrate" slot matching the tracker's role:
`_lastAdRendition` for an ad tracker, `_lastRendition` for content
(videotracker.js lines 259-264). -/
def roleLastRendition (t : VideoTracker) : Option Int :=
  if t.state.isAd then t.lastAdRendition else t.lastRendition

/-- The "last recorded bitrate" slot of the other role. -/
def otherRoleLastRendition (t : VideoTracker) : Option Int :=
  if t.state.isAd then t.lastRendition else t.lastAdRendition

/-- `sendRenditionChanged` (videotracker.js lines 723-735): no guard; adds
the rendition-change delta and the shift verdict (saving the new baseline),
emits, then re-marks via `goRenditionChange`. -/
def VideoTracker.sendRenditionChanged (t : VideoTracker) (att : AttributeBag)
    (bitrate : Option Int) (now : Nat) : SendResult :=
  let att := attSet att "timeSinceLastRenditionChange"
    (.num (Int.ofNat (t.state.timeSinceLastRenditionChange.getDeltaTime now)))
  let ts := t.getRenditionShift bitrate true
  let att := attSet att "shift" (shiftToJs ts.2)
  let t := ts.1
  let ev := if t.state.isAd then Events.AD_RENDITION_CHANGE
    else Events.CONTENT_RENDITION_CHANGE
  { tracker := { t with state := t.state.goRenditionChange now }
    events := [⟨ev, att⟩]
    warns := [] }

/-- `sendHeartbeat` (videotracker.js lines 744-755): gated directly on the
`isRequested` predicate. -/
def VideoTracker.sendHeartbeat (t : VideoTracker) (att : AttributeBag)
    (now : Nat) : SendResult :=
  if t.state.isRequested then
    let ev := if t.state.isAd then Events.AD_HEARTBEAT
      else Events.CONTENT_HEARTBEAT
    { tracker := { t with state := t.state.goHeartbeat now }
      events := [⟨ev, att⟩]
      warns := [] }
  else SendResult.noop t

/-- `sendAdBreakStart` (videotracker.js lines 763-769): gated on the `isAd`
flag and `goAdBreakStart`; zeroes `totalAdPlaytime` and clears the parent's
`isPlaying` flag. -/
def VideoTracker.sendAdBreakStart (t : VideoTracker) (att : AttributeBag)
    (now : Nat) : SendResult :=
  if t.state.isAd then
    let r := t.state.goAdBreakStart now
    if r.1 then
      let st := { r.2 with totalAdPlaytime := 0 }
      let pt := Option.map (fun p => { p with isPlaying := false })
        t.parentTracker
      { tracker := { t with state := st, parentTracker := pt }
        events := [⟨Events.AD_BREAK_START, att⟩]
        warns := [] }
    else SendResult.noop t
  else SendResult.noop t

/-- `sendAdBreakEnd` (videotracker.js lines 776-786): gated on the `isAd`
flag and `goAdBreakEnd`; reports `timeSinceAdBreakBegin`, restores the
parent's `isPlaying` flag, stops the heartbeat and advances the parent's
last-ad bookkeeping. -/
def VideoTracker.sendAdBreakEnd (t : VideoTracker) (att : AttributeBag)
    (now : Nat) : SendResult :=
  if t.state.isAd then
    let r := t.state.goAdBreakEnd now
    if r.1 then
      let st := r.2
      let att := attSet att "timeSinceAdBreakBegin"
        (.num (Int.ofNat (st.timeSinceAdBreakStart.getDeltaTime now)))
      let pt := Option.map (fun p => { p with isPlaying := true })
        t.parentTracker
      let pt := Option.map (fun p => p.goLastAd now) pt
      { tracker :=
          { t with state := st, parentTracker := pt, heartbeatRunning := false }
        events := [⟨Events.AD_BREAK_END, att⟩]
        warns := [] }
    else SendResult.noop t
  else SendResult.noop t

/-- `sendAdQuartile` (videotracker.js lines 794-802): gated on the `isAd`
flag only; warns when `att.quartile` is missing, adds the quartile delta,
emits `AD_QUARTILE`, re-marks via `goAdQuartile`. -/
def VideoTracker.sendAdQuartile (t : VideoTracker) (att : AttributeBag)
    (now : Nat) : SendResult :=
  if t.state.isAd then
    let warns :=
      if jsTruthy (attGet att "quartile") then []
      else ["Called sendAdQuartile without \x7b quartile: xxxxx \x7d."]
    let att := attSet att "timeSinceLastAdQuartile"
      (.num (Int.ofNat (t.state.timeSinceLastAdQuartile.getDeltaTime now)))
    { tracker := { t with state := t.state.goAdQuartile now }
      events := [⟨Events.AD_QUARTILE, att⟩]
      warns := warns }
  else SendResult.noop t

/-- `sendAdClick` (videotracker.js lines 810-816): gated on the `isAd` flag
only; warns when `att.url` is missing, emits `AD_CLICK`, no state change. -/
def VideoTracker.sendAdClick (t : VideoTracker) (att : AttributeBag)
    (_now : Nat) : SendResult :=
  if t.state.isAd then
    let warns :=
      if jsTruthy (attGet att "url") then []
      else ["Called sendAdClick without \x7b url: xxxxx \x7d."]
    { tracker := t
      events := [⟨Events.AD_CLICK, att⟩]
      warns := warns }
  else SendResult.noop t

/-! Call-sequence semantics: the public `send*` surface of §4.4 as a step
relation, so temporal claims quantify over arbitrary call sequences. -/

/-- One external call on the public `send*` surface (§4.4). Attribute bags
are the caller-supplied `att`; `renditionChanged` also carries the player's
current rendition bitrate (the `getRenditionBitrate` input). -/
inductive Op where
  | playerReady (att : AttributeBag)
  | request (att : AttributeBag)
  | start (att : AttributeBag)
  | pause (att : AttributeBag)
  | resume (att : AttributeBag)
  | bufferStart (att : AttributeBag)
  | bufferEnd (att : AttributeBag)
  | seekStart (att : AttributeBag)
  | seekEnd (att : AttributeBag)
  | finish (att : AttributeBag)
  | renditionChanged (att : AttributeBag) (bitrate : Option Int)
  | heartbeat (att : AttributeBag)
  | download (att : AttributeBag)
  | playbackError (att : AttributeBag)
  | adBreakStart (att : AttributeBag)
  | adBreakEnd (att : AttributeBag)
  | adQuartile (att : AttributeBag)
  | adClick (att : AttributeBag)
deriving Repr, DecidableEq

/-- Whether the call is `sendEnd`. -/
def Op.isFinish : Op → Bool
  | .finish _ => true
  | _ => false

/-- Whether the call is `sendBufferEnd`. -/
def Op.isBufferEnd : Op → Bool
  | .bufferEnd _ => true
  | _ => false

/-- Dispatch one call to the matching `send*` operation. -/
def applyOp (t : VideoTracker) (op : Op) (now : Nat) : SendResult :=
  match op with
  | .playerReady att => t.sendPlayerReady att now
  | .request att => t.sendRequest att now
  | .start att => t.sendStart att now
  | .pause att => t.sendPause att now
  | .resume att => t.sendResume att now
  | .bufferStart att => t.sendBufferStart att now
  | .bufferEnd att => t.sendBufferEnd att now
  | .seekStart att => t.sendSeekStart att now
  | .seekEnd att => t.sendSeekEnd att now
  | .finish att => t.sendEnd att now
  | .renditionChanged att bitrate => t.sendRenditionChanged att bitrate now
  | .heartbeat att => t.sendHeartbeat att now
  | .download att => t.sendDownload att now
  | .playbackError att => t.sendError att now
  | .adBreakStart att => t.sendAdBreakStart att now
  | .adBreakEnd att => t.sendAdBreakEnd att now
  | .adQuartile att => t.sendAdQuartile att now
  | .adClick att => t.sendAdClick att now

/-- Run a sequence of timestamped calls, collecting every emitted event. -/
def runOps (t : VideoTracker) : List (Op × Nat) → VideoTracker × List EmittedEvent
  | [] => (t, [])
  | (op, now) :: rest =>
    let r := applyOp t op now
    let tail := runOps r.tracker rest
    (tail.1, r.events ++ tail.2)

/-- Whether an event is a `*_REQUEST` event. -/
def isRequestEvent (e : EmittedEvent) : Bool :=
  e.type = Events.AD_REQUEST || e.type = Events.CONTENT_REQUEST

/-- Number of `*_REQUEST` events in a delivered event list. -/
def countRequests (evs : List EmittedEvent) : Nat :=
  evs.countP isRequestEvent

/-- The `bufferType` attribute of the first event a call delivered. -/
def bufferTypeOf (r : SendResult) : Option JsVal :=
  r.events.head?.bind (fun e => attGet e.data "bufferType")

/-! Parent-chain identity delegation (videotracker.js lines 182-201): the
`parentTracker` references form a finite acyclic chain (spec §3), rendered
as a nested inductive. -/

/-- A tracker reference together with its (acyclic) chain of parent
references, as read by `getViewId`/`getViewSession`. -/
inductive VideoTrackerRef where
  | mk (state : TrackerState) (parentTracker : Option VideoTrackerRef)

/-- The referenced tracker's own state. -/
def VideoTrackerRef.state : VideoTrackerRef → TrackerState
  | .mk st _ => st

/-- The referenced tracker's parent link. -/
def VideoTrackerRef.parentTracker : VideoTrackerRef → Option VideoTrackerRef
  | .mk _ p => p

/-- `getViewId` (videotracker.js lines 182-188): the parent's view id when a
parent link exists, else the tracker's own state id. -/
def VideoTrackerRef.getViewId : VideoTrackerRef → String
  | .mk _ (some p) => p.getViewId
  | .mk st none => st.getViewId

/-- `getViewSession` (videotracker.js lines 195-201): the parent's view
session when a parent link exists, else the tracker's own state session. -/
def VideoTrackerRef.getViewSession : VideoTrackerRef → String
  | .mk _ (some p) => p.getViewSession
  | .mk st none => st.getViewSession

/-- The root of the parent chain. -/
def VideoTrackerRef.rootState : VideoTrackerRef → TrackerState
  | .mk st none => st
  | .mk _ (some p) => p.rootState

/-! Parent/child composition and funneling (videotracker.js lines 112-120
and 897-899). -/

/-- Modelled from the spec: `Tracker.send` delivers the
`(eventName, attributeBag)` pair to the sink unchanged, fire-and-forget
(§4.3, §6); the source file `tracker.js` is not in the tree. The sink is
rendered as the list of pairs delivered so far. -/
def trackerSend (sink : List EmittedEvent) (name : String)
    (data : AttributeBag) : List EmittedEvent :=
  sink ++ [⟨name, data⟩]

/-- `funnelAdEvents` (videotracker.js lines 897-899): the handler the parent
subscribes to all of the child's events; it re-sends the child event through
the parent's own `send`: `this.send(e.type, e.data)`. -/
def funnelAdEvents (parentSink : List EmittedEvent) (e : EmittedEvent) :
    List EmittedEvent :=
  trackerSend parentSink e.type e.data

/-- Forward a list of child-emitted events through the parent's sink, in
order, as the wildcard subscription does. -/
def forwardAll (parentSink : List EmittedEvent) (evs : List EmittedEvent) :
    List EmittedEvent :=
  evs.foldl funnelAdEvents parentSink

/-- A parent tracker together with its optional bound ad tracker and the
wildcard funnel subscription (videotracker.js lines 34-38, 112-120). -/
structure ParentWithAds where
  self : VideoTracker
  adsTracker : Option VideoTracker
  funnelSubscribed : Bool
deriving Repr, DecidableEq

/-- `setAdsTracker` (videotracker.js lines 112-120): disposes any current ad
tracker, binds the new child, forces its `isAd` flag true, assigns the
parent link and subscribes `funnelAdEvents` to all of the child's events. -/
def setAdsTracker (p : ParentWithAds) (tracker : VideoTracker) :
    ParentWithAds :=
  { self := p.self
    adsTracker := some
      { tracker with
          state := tracker.state.setIsAd true
          parentTracker := some p.self.state }
    funnelSubscribed := true }

/-! Attribute-bag lemmas. -/

theorem attGet_attSet_self (att : AttributeBag) (k : String) (v : JsVal) :
    attGet (attSet att k v) k = some v := by
  induction att with
  | nil => simp [attSet, attGet]
  | cons hd tl ih =>
    obtain ⟨k1, v1⟩ := hd
    by_cases hk : k1 = k
    · simp [attSet, hk, attGet]
    · simp [attSet, hk, attGet, ih]

theorem attGet_attSet_ne (att : AttributeBag) (k k' : String) (v : JsVal)
    (h : k' ≠ k) : attGet (attSet att k v) k' = attGet att k' := by
  induction att with
  | nil => simp [attSet, attGet, Ne.symm h]
  | cons hd tl ih =>
    obtain ⟨k1, v1⟩ := hd
    by_cases hk : k1 = k
    · subst hk
      simp [attSet, attGet, Ne.symm h]
    · simp [attSet, attGet, hk, ih]

/-- The `bufferType` field written by `buildBufferAttributes` is the
classification of the episode computed by `calculateBufferType`. -/
theorem attGet_bufferType_build (t : VideoTracker) (att : AttributeBag)
    (now : Nat) :
    attGet (t.buildBufferAttributes att now) "bufferType" =
      some (.str (t.state.calculateBufferType (isInitialBuffering t.state att))) := by
  unfold VideoTracker.buildBufferAttributes
  rw [attGet_attSet_ne _ _ _ _ (by decide), attGet_attSet_ne _ _ _ _ (by decide),
    attGet_attSet_self]

/-- C6: for every VideoTracker whose `isAd` flag is false, `sendAdQuartile`
and `sendAdClick` emit no event and perform no state change — the `isAd`
flag gates the ad-break-scoped operations. -/
theorem c6_isAd_gates_ad_scoped_ops (t : VideoTracker) (att att2 : AttributeBag)
    (now now2 : Nat) (h : t.state.isAd = false) :
    t.sendAdQuartile att now = SendResult.noop t ∧
    t.sendAdClick att2 now2 = SendResult.noop t := by
  constructor
  · simp [VideoTracker.sendAdQuartile, h]
  · simp [VideoTracker.sendAdClick, h]

/-- Witness for C6 at a freshly constructed content tracker. -/
theorem c6_isAd_gates_ad_scoped_ops_witness :
    (VideoTracker.init "s").sendAdQuartile [] 3 =
      SendResult.noop (VideoTracker.init "s") ∧
    (VideoTracker.init "s").sendAdClick [] 4 =
      SendResult.noop (VideoTracker.init "s") :=
  c6_isAd_gates_ad_scoped_ops (VideoTracker.init "s") [] [] 3 4 rfl

/-- C7: `sendDownload` without `att.state`, `sendAdQuartile` (on an ad-role
tracker) without `att.quartile`, and `sendAdClick` (on an ad-role tracker)
without `att.url` each log a warning and still emit their event with the
missing field absent from the delivered attribute bag; no exception is
raised (all three operations are total functions of the embedding). -/
theorem c7_missing_field_warns_and_emits (t u v : VideoTracker)
    (a b c : AttributeBag) (n1 n2 n3 : Nat)
    (ha : attGet a "state" = none)
    (hu : u.state.isAd = true) (hb : attGet b "quartile" = none)
    (hv : v.state.isAd = true) (hc : attGet c "url" = none) :
    ((t.sendDownload a n1).warns ≠ [] ∧
      (t.sendDownload a n1).events.map EmittedEvent.type = [Events.DOWNLOAD] ∧
      ((t.sendDownload a n1).events.head?.bind
        (fun e => attGet e.data "state")) = none) ∧
    ((u.sendAdQuartile b n2).warns ≠ [] ∧
      (u.sendAdQuartile b n2).events.map EmittedEvent.type =
        [Events.AD_QUARTILE] ∧
      ((u.sendAdQuartile b n2).events.head?.bind
        (fun e => attGet e.data "quartile")) = none) ∧
    ((v.sendAdClick c n3).warns ≠ [] ∧
      (v.sendAdClick c n3).events.map EmittedEvent.type = [Events.AD_CLICK] ∧
      ((v.sendAdClick c n3).events.head?.bind
        (fun e => attGet e.data "url")) = none) := by
  refine ⟨⟨?_, ?_, ?_⟩, ⟨?_, ?_, ?_⟩, ⟨?_, ?_, ?_⟩⟩
  · simp [VideoTracker.sendDownload, ha, jsTruthy]
  · simp [VideoTracker.sendDownload]
  · simp [VideoTracker.sendDownload, ha]
  · simp [VideoTracker.sendAdQuartile, hu, hb, jsTruthy]
  · simp [VideoTracker.sendAdQuartile, hu]
  · simp [VideoTracker.sendAdQuartile, hu,
      attGet_attSet_ne _ _ _ _ (by decide : ("quartile" : String) ≠ "timeSinceLastAdQuartile"), hb]
  · simp [VideoTracker.sendAdClick, hv, hc, jsTruthy]
  · simp [VideoTracker.sendAdClick, hv]
  · simp [VideoTracker.sendAdClick, hv, hc]

/-- Witness for C7: an ad tracker and empty bags (all three fields absent). -/
theorem c7_missing_field_warns_and_emits_witness :
    (((VideoTracker.init "s").sendDownload [] 1).warns ≠ [] ∧
      ((VideoTracker.init "s").sendDownload [] 1).events.map EmittedEvent.type =
        [Events.DOWNLOAD] ∧
      (((VideoTracker.init "s").sendDownload [] 1).events.head?.bind
        (fun e => attGet e.data "state")) = none) ∧
    ((({ VideoTracker.init "s" with
          state := (TrackerState.init "s").setIsAd true }).sendAdQuartile [] 2).warns ≠ [] ∧
      (({ VideoTracker.init "s" with
          state := (TrackerState.init "s").setIsAd true }).sendAdQuartile [] 2).events.map
        EmittedEvent.type = [Events.AD_QUARTILE] ∧
      ((({ VideoTracker.init "s" with
          state := (TrackerState.init "s").setIsAd true }).sendAdQuartile [] 2).events.head?.bind
        (fun e => attGet e.data "quartile")) = none) ∧
    ((({ VideoTracker.init "s" with
          state := (TrackerState.init "s").setIsAd true }).sendAdClick [] 3).warns ≠ [] ∧
      (({ VideoTracker.init "s" with
          state := (TrackerState.init "s").setIsAd true }).sendAdClick [] 3).events.map
        EmittedEvent.type = [Events.AD_CLICK] ∧
      ((({ VideoTracker.init "s" with
          state := (TrackerState.init "s").setIsAd true }).sendAdClick [] 3).events.head?.bind
        (fun e => attGet e.data "url")) = none) :=
  c7_missing_field_warns_and_emits (VideoTracker.init "s")
    { VideoTracker.init "s" with state := (TrackerState.init "s").setIsAd true }
    { VideoTracker.init "s" with state := (TrackerState.init "s").setIsAd true }
    [] [] [] 1 2 3 rfl rfl rfl rfl rfl

/-- C2: for every content (non-ad) tracker whose state accepts `goEnd`,
`sendEnd` emits `CONTENT_END`, issues a new view id via `goViewCountUp`
(the view counter advances, so `getViewId` moves to the next id), and
resets `totalPlaytime` to 0. -/
theorem c2_send_end_content (t : VideoTracker) (att : AttributeBag) (now : Nat)
    (had : t.state.isAd = false) (hacc : (t.state.goEnd now).1 = true) :
    (t.sendEnd att now).events.map EmittedEvent.type = [Events.CONTENT_END] ∧
    (t.sendEnd att now).tracker.state.viewCount = t.state.viewCount + 1 ∧
    (t.sendEnd att now).tracker.state.totalPlaytime = 0 := by
  have hreq : t.state.isRequested = true := by
    by_cases hc : t.state.isRequested
    · exact hc
    · simp [TrackerState.goEnd, hc] at hacc
  refine ⟨?_, ?_, ?_⟩ <;>
    simp [VideoTracker.sendEnd, TrackerState.goEnd, TrackerState.goViewCountUp,
      hreq, had]

/-- Witness for C2: a content tracker with a request in flight. -/
theorem c2_send_end_content_witness :
    (({ VideoTracker.init "s" with
        state := { TrackerState.init "s" with isRequested := true } }).sendEnd
          [] 9).events.map EmittedEvent.type = [Events.CONTENT_END] ∧
    (({ VideoTracker.init "s" with
        state := { TrackerState.init "s" with isRequested := true } }).sendEnd
          [] 9).tracker.state.viewCount =
      ({ TrackerState.init "s" with isRequested := true } : TrackerState).viewCount + 1 ∧
    (({ VideoTracker.init "s" with
        state := { TrackerState.init "s" with isRequested := true } }).sendEnd
          [] 9).tracker.state.totalPlaytime = 0 :=
  c2_send_end_content
    { VideoTracker.init "s" with
        state := { TrackerState.init "s" with isRequested := true } }
    [] 9 rfl rfl

/-- C3: for an ad-role tracker with a parent whose state accepts the
transition, `sendAdBreakStart` sets `totalAdPlaytime` to 0, clears the
parent's `isPlaying` flag and emits `AD_BREAK_START`; `sendAdBreakEnd`
restores the parent's `isPlaying` flag and the emitted `AD_BREAK_END`
carries `timeSinceAdBreakBegin ≥ 0` (the `Chrono` delta of the monotonic
clock is a natural number). -/
theorem c3_ad_break_parent_flag (t u : VideoTracker) (p q : TrackerState)
    (att att2 : AttributeBag) (now now2 : Nat)
    (ht : t.state.isAd = true) (hp : t.parentTracker = some p)
    (hb : t.state.isAdBreak = false)
    (hu : u.state.isAd = true) (hq : u.parentTracker = some q)
    (hub : u.state.isAdBreak = true) :
    (t.sendAdBreakStart att now).tracker.state.totalAdPlaytime = 0 ∧
    (t.sendAdBreakStart att now).tracker.parentTracker.map
      TrackerState.isPlaying = some false ∧
    (t.sendAdBreakStart att now).events = [⟨Events.AD_BREAK_START, att⟩] ∧
    (u.sendAdBreakEnd att2 now2).tracker.parentTracker.map
      TrackerState.isPlaying = some true ∧
    (u.sendAdBreakEnd att2 now2).events.map EmittedEvent.type =
      [Events.AD_BREAK_END] ∧
    (∃ d : Int, ((u.sendAdBreakEnd att2 now2).events.head?.bind
        (fun e => attGet e.data "timeSinceAdBreakBegin")) = some (.num d) ∧
      0 ≤ d) := by
  refine ⟨?_, ?_, ?_, ?_, ?_, ?_⟩
  · simp [VideoTracker.sendAdBreakStart, TrackerState.goAdBreakStart, ht, hb]
  · simp [VideoTracker.sendAdBreakStart, TrackerState.goAdBreakStart, ht, hb, hp]
  · simp [VideoTracker.sendAdBreakStart, TrackerState.goAdBreakStart, ht, hb]
  · simp [VideoTracker.sendAdBreakEnd, TrackerState.goAdBreakEnd,
      TrackerState.goLastAd, hu, hub, hq]
  · simp [VideoTracker.sendAdBreakEnd, TrackerState.goAdBreakEnd, hu, hub]
  · refine ⟨Int.ofNat (((u.state.goAdBreakEnd now2).2).timeSinceAdBreakStart.getDeltaTime now2), ?_, ?_⟩
    · simp [VideoTracker.sendAdBreakEnd, TrackerState.goAdBreakEnd, hu, hub,
        attGet_attSet_self]
    · exact Int.ofNat_nonneg _

/-- Witness for C3: an ad tracker bound to a content parent, outside and
inside an ad break. -/
theorem c3_ad_break_parent_flag_witness :
    (({ VideoTracker.init "a" with
        state := (TrackerState.init "a").setIsAd true
        parentTracker := some (TrackerState.init "p") }).sendAdBreakStart
          [] 5).tracker.state.totalAdPlaytime = 0 ∧
    (({ VideoTracker.init "a" with
        state := (TrackerState.init "a").setIsAd true
        parentTracker := some (TrackerState.init "p") }).sendAdBreakStart
          [] 5).tracker.parentTracker.map TrackerState.isPlaying = some false ∧
    (({ VideoTracker.init "a" with
        state := (TrackerState.init "a").setIsAd true
        parentTracker := some (TrackerState.init "p") }).sendAdBreakStart
          [] 5).events = [⟨Events.AD_BREAK_START, []⟩] ∧
    (({ VideoTracker.init "a" with
        state := { (TrackerState.init "a").setIsAd true with isAdBreak := true }
        parentTracker := some (TrackerState.init "p") }).sendAdBreakEnd
          [] 7).tracker.parentTracker.map TrackerState.isPlaying = some true ∧
    (({ VideoTracker.init "a" with
        state := { (TrackerState.init "a").setIsAd true with isAdBreak := true }
        parentTracker := some (TrackerState.init "p") }).sendAdBreakEnd
          [] 7).events.map EmittedEvent.type = [Events.AD_BREAK_END] ∧
    (∃ d : Int, ((({ VideoTracker.init "a" with
        state := { (TrackerState.init "a").setIsAd true with isAdBreak := true }
        parentTracker := some (TrackerState.init "p") }).sendAdBreakEnd
          [] 7).events.head?.bind
        (fun e => attGet e.data "timeSinceAdBreakBegin")) = some (.num d) ∧
      0 ≤ d) :=
  c3_ad_break_parent_flag
    { VideoTracker.init "a" with
        state := (TrackerState.init "a").setIsAd true
        parentTracker := some (TrackerState.init "p") }
    { VideoTracker.init "a" with
        state := { (TrackerState.init "a").setIsAd true with isAdBreak := true }
        parentTracker := some (TrackerState.init "p") }
    (TrackerState.init "p") (TrackerState.init "p") [] [] 5 7
    rfl rfl rfl rfl rfl rfl

/-- A tracker's view id is the one of the root of its parent chain. -/
theorem getViewId_eq_rootState :
    ∀ r : VideoTrackerRef, r.getViewId = r.rootState.getViewId
  | .mk _ none => rfl
  | .mk _ (some p) => getViewId_eq_rootState p

/-- A tracker's view session is the one of the root of its parent chain. -/
theorem getViewSession_eq_rootState :
    ∀ r : VideoTrackerRef, r.getViewSession = r.rootState.getViewSession
  | .mk _ none => rfl
  | .mk _ (some p) => getViewSession_eq_rootState p

/-- C10: with a non-null `parentTracker` reference, `getViewId` and
`getViewSession` return the parent tracker's view id and view session
(recursively, the root of the parent chain's own state ids); with no parent
they return the tracker's own state's ids. -/
theorem c10_view_identity_delegation (st : TrackerState) (p : VideoTrackerRef) :
    VideoTrackerRef.getViewId (.mk st (some p)) = p.getViewId ∧
    VideoTrackerRef.getViewSession (.mk st (some p)) = p.getViewSession ∧
    VideoTrackerRef.getViewId (.mk st none) = st.getViewId ∧
    VideoTrackerRef.getViewSession (.mk st none) = st.getViewSession ∧
    (∀ r : VideoTrackerRef, r.getViewId = r.rootState.getViewId ∧
      r.getViewSession = r.rootState.getViewSession) :=
  ⟨rfl, rfl, rfl, rfl, fun r =>
    ⟨getViewId_eq_rootState r, getViewSession_eq_rootState r⟩⟩

/-- Forwarding every child event through the parent's sink appends exactly
those events, names and attribute bags unchanged and in order. -/
theorem forwardAll_eq_append :
    ∀ (evs : List EmittedEvent) (sink : List EmittedEvent),
      forwardAll sink evs = sink ++ evs
  | [], sink => by simp [forwardAll]
  | e :: rest, sink => by
    show forwardAll (trackerSend sink e.type e.data) rest = sink ++ e :: rest
    rw [forwardAll_eq_append rest]
    simp [trackerSend]

/-- C5: after `parent.setAdsTracker(child)`, the child's `isAd` flag is
true, the child's `parentTracker` reference is the parent, the wildcard
funnel subscription is in place, and every event the child emits — for
every event name and attribute bag — is forwarded unchanged (same name,
same attributes) through the parent's `send` to the parent's sink. -/
theorem c5_set_ads_tracker_funnels (p : ParentWithAds) (c : VideoTracker)
    (sink : List EmittedEvent) (evs : List EmittedEvent) :
    (setAdsTracker p c).adsTracker.map (fun t => t.state.isAd) = some true ∧
    (setAdsTracker p c).adsTracker.map (fun t => t.parentTracker) =
      some (some p.self.state) ∧
    (setAdsTracker p c).funnelSubscribed = true ∧
    forwardAll sink evs = sink ++ evs := by
  refine ⟨?_, ?_, rfl, forwardAll_eq_append evs sink⟩
  · simp [setAdsTracker, TrackerState.setIsAd]
  · simp [setAdsTracker]

/-- C4: `getRenditionShift` returns `up` when the current rendition bitrate
exceeds the last recorded bitrate for the tracker's role (ad and content
keep independent last slots), `down` when it is smaller, and `null` when
they are equal or when either value is absent (JS-falsy); when
`saveNewRendition` is true the current bitrate is persisted as that role's
new baseline, and the other role's slot is never touched. In particular,
with prior bitrate 500 and current bitrate 800 and `saveNewRendition=true`
it returns `up`; a subsequent call with current bitrate 800 returns `null`;
a call with current bitrate 300 returns `down`. -/
theorem c4_rendition_shift (t : VideoTracker) (cur : Option Int) (save : Bool)
    (u : VideoTracker) (hu : roleLastRendition u = some 500) :
    (jsTruthyInt cur = false ∨ jsTruthyInt (roleLastRendition t) = false →
      (t.getRenditionShift cur save).2 = none) ∧
    (∀ cv lv : Int, cur = some cv → roleLastRendition t = some lv →
      cv ≠ 0 → lv ≠ 0 →
      (t.getRenditionShift cur save).2 =
        (if lv < cv then some Shift.up
          else if cv < lv then some Shift.down else none)) ∧
    (save = true → roleLastRendition (t.getRenditionShift cur save).1 = cur) ∧
    (otherRoleLastRendition (t.getRenditionShift cur save).1 =
      otherRoleLastRendition t) ∧
    ((u.getRenditionShift (some 800) true).2 = some Shift.up ∧
      (((u.getRenditionShift (some 800) true).1).getRenditionShift
        (some 800) true).2 = none ∧
      (((((u.getRenditionShift (some 800) true).1).getRenditionShift
        (some 800) true).1).getRenditionShift (some 300) true).2 =
        some Shift.down) := by
  refine ⟨?_, ?_, ?_, ?_, ?_⟩
  · intro h
    rcases h with h | h <;>
      cases hAd : t.state.isAd <;> cases save <;>
        simp_all [VideoTracker.getRenditionShift, roleLastRendition]
  · intro cv lv hc hl hcv hlv
    subst hc
    cases hAd : t.state.isAd <;> cases save <;>
      simp_all [VideoTracker.getRenditionShift, roleLastRendition, jsTruthyInt] <;>
      rcases lt_trichotomy lv cv with hlt | heq | hgt <;>
      simp_all [not_lt_of_gt, le_of_lt]
  · intro hs
    subst hs
    cases hAd : t.state.isAd <;>
      simp_all [VideoTracker.getRenditionShift, roleLastRendition] <;>
      split_ifs <;> simp_all
  · cases hAd : t.state.isAd <;> cases save <;>
      simp_all [VideoTracker.getRenditionShift, otherRoleLastRendition] <;>
      split_ifs <;> simp_all
  · cases hAd : u.state.isAd <;>
      simp_all [VideoTracker.getRenditionShift, roleLastRendition, jsTruthyInt]

/-- Witness for C4: a content tracker, a present nonzero bitrate pair, and
the spec's 500/800/300 scenario. -/
theorem c4_rendition_shift_witness :
    ((jsTruthyInt (some (700 : Int)) = false ∨
        jsTruthyInt (roleLastRendition
          { VideoTracker.init "s" with lastRendition := some 500 }) = false →
      (({ VideoTracker.init "s" with
          lastRendition := some 500 }).getRenditionShift (some 700) true).2 =
        none) ∧
    (∀ cv lv : Int, some (700 : Int) = some cv →
      roleLastRendition { VideoTracker.init "s" with lastRendition := some 500 } =
        some lv → cv ≠ 0 → lv ≠ 0 →
      (({ VideoTracker.init "s" with
          lastRendition := some 500 }).getRenditionShift (some 700) true).2 =
        (if lv < cv then some Shift.up
          else if cv < lv then some Shift.down else none)) ∧
    (true = true → roleLastRendition
      (({ VideoTracker.init "s" with
          lastRendition := some 500 }).getRenditionShift (some 700) true).1 =
        some 700) ∧
    (otherRoleLastRendition
      (({ VideoTracker.init "s" with
          lastRendition := some 500 }).getRenditionShift (some 700) true).1 =
      otherRoleLastRendition
        { VideoTracker.init "s" with lastRendition := some 500 }) ∧
    ((({ VideoTracker.init "s" with
        lastRendition := some 500 }).getRenditionShift (some 800) true).2 =
        some Shift.up ∧
      ((({ VideoTracker.init "s" with
          lastRendition := some 500 }).getRenditionShift
            (some 800) true).1.getRenditionShift (some 800) true).2 = none ∧
      (((({ VideoTracker.init "s" with
          lastRendition := some 500 }).getRenditionShift
            (some 800) true).1.getRenditionShift
              (some 800) true).1.getRenditionShift (some 300) true).2 =
        some Shift.down)) :=
  c4_rendition_shift
    { VideoTracker.init "s" with lastRendition := some 500 } (some 700) true
    { VideoTracker.init "s" with lastRendition := some 500 } rfl

/-- C8: an accepted `sendBufferStart` classifies the episode, in order of
priority: `initial` when the episode begins within 50ms of start (the
supplied `timeSinceStarted` delta is at most 50, well inside the code's
100ms threshold) and no buffering has yet completed for the current view;
otherwise `seek` when a seek-start preceded the buffering with no
intervening playback (an open seek); otherwise `other`. -/
theorem c8_buffer_start_classification (t : VideoTracker) (att : AttributeBag)
    (now : Nat) (n : Int)
    (hreq : t.state.isRequested = true) (hbuf : t.state.isBuffering = false) :
    (attGet att "timeSinceStarted" = some (.num n) → n ≤ 50 →
      t.state.initialBufferingHappened = false →
      bufferTypeOf (t.sendBufferStart att now) = some (.str "initial")) ∧
    (isInitialBuffering t.state att = false → t.state.isSeeking = true →
      bufferTypeOf (t.sendBufferStart att now) = some (.str "seek")) ∧
    (isInitialBuffering t.state att = false → t.state.isSeeking = false →
      bufferTypeOf (t.sendBufferStart att now) = some (.str "other")) := by
  have hk : ∀ v : JsVal,
      bufferTypeOf (t.sendBufferStart att now) = some v ↔
      (.str (TrackerState.calculateBufferType
        { t.state with isBuffering := true, timeSinceBufferBegin := Chrono.start now }
        (isInitialBuffering t.state att)) : JsVal) = v := by
    intro v
    simp only [VideoTracker.sendBufferStart, TrackerState.goBufferStart, hreq,
      hbuf, Bool.not_false, Bool.and_self, if_true, bufferTypeOf]
    simp [attGet_bufferType_build, isInitialBuffering]
  refine ⟨?_, ?_, ?_⟩
  · intro hts hn hinit
    rw [hk]
    have : isInitialBuffering t.state att = true := by
      simp [isInitialBuffering, hts, jsUndefOrLt100, hinit]
      omega
    simp [this, TrackerState.calculateBufferType]
  · intro hni hseek
    rw [hk]
    simp [hni, TrackerState.calculateBufferType, hseek]
  · intro hni hseek
    rw [hk]
    simp [hni, TrackerState.calculateBufferType, hseek]

/-- Witness for C8: a buffering episode 30ms after start on a fresh view
classifies `initial`; with a completed earlier buffering, an open seek
gives `seek` and no open seek gives `other`. -/
theorem c8_buffer_start_classification_witness :
    bufferTypeOf (({ VideoTracker.init "s" with
        state := { TrackerState.init "s" with
          isRequested := true } }).sendBufferStart
            [("timeSinceStarted", JsVal.num 30)] 3) = some (.str "initial") ∧
    bufferTypeOf (({ VideoTracker.init "s" with
        state := { TrackerState.init "s" with
          isRequested := true, initialBufferingHappened := true,
          isSeeking := true } }).sendBufferStart
            [("timeSinceStarted", JsVal.num 30)] 3) = some (.str "seek") ∧
    bufferTypeOf (({ VideoTracker.init "s" with
        state := { TrackerState.init "s" with
          isRequested := true,
          initialBufferingHappened := true } }).sendBufferStart
            [("timeSinceStarted", JsVal.num 30)] 3) = some (.str "other") :=
  ⟨(c8_buffer_start_classification
      { VideoTracker.init "s" with
        state := { TrackerState.init "s" with isRequested := true } }
      [("timeSinceStarted", JsVal.num 30)] 3 30 rfl rfl).1
      (by decide) (by decide) rfl,
    (c8_buffer_start_classification
      { VideoTracker.init "s" with
        state := { TrackerState.init "s" with
          isRequested := true, initialBufferingHappened := true,
          isSeeking := true } }
      [("timeSinceStarted", JsVal.num 30)] 3 30 rfl rfl).2.1
      (by decide) rfl,
    (c8_buffer_start_classification
      { VideoTracker.init "s" with
        state := { TrackerState.init "s" with
          isRequested := true, initialBufferingHappened := true } }
      [("timeSinceStarted", JsVal.num 30)] 3 30 rfl rfl).2.2
      (by decide) rfl⟩

/-- While a request is in flight, no call other than `sendEnd` clears the
`isRequested` flag, and no call other than an accepted `sendRequest`
delivers a `*_REQUEST` event (a `sendRequest` in this situation is
rejected). -/
theorem applyOp_no_request_effect (t : VideoTracker) (op : Op) (now : Nat)
    (h : t.state.isRequested = true) (hop : op.isFinish = false) :
    (applyOp t op now).tracker.state.isRequested = true ∧
    countRequests (applyOp t op now).events = 0 := by
  cases op <;>
    simp_all [applyOp, Op.isFinish, countRequests, isRequestEvent,
      SendResult.noop, List.countP_cons, List.countP_nil,
      VideoTracker.sendPlayerReady, VideoTracker.sendRequest,
      VideoTracker.sendStart, VideoTracker.sendPause, VideoTracker.sendResume,
      VideoTracker.sendBufferStart, VideoTracker.sendBufferEnd,
      VideoTracker.sendSeekStart, VideoTracker.sendSeekEnd,
      VideoTracker.sendEnd, VideoTracker.sendRenditionChanged,
      VideoTracker.sendHeartbeat, VideoTracker.sendDownload,
      VideoTracker.sendError, VideoTracker.sendAdBreakStart,
      VideoTracker.sendAdBreakEnd, VideoTracker.sendAdQuartile,
      VideoTracker.sendAdClick, VideoTracker.buildBufferAttributes,
      VideoTracker.getRenditionShift,
      TrackerState.goPlayerReady, TrackerState.goRequest,
      TrackerState.goStart, TrackerState.goPause, TrackerState.goResume,
      TrackerState.goBufferStart, TrackerState.goBufferEnd,
      TrackerState.goSeekStart, TrackerState.goSeekEnd, TrackerState.goEnd,
      TrackerState.goAdBreakStart, TrackerState.goAdBreakEnd,
      TrackerState.goHeartbeat, TrackerState.goDownload, TrackerState.goError,
      TrackerState.goRenditionChange, TrackerState.goAdQuartile,
      TrackerState.goLastAd, TrackerState.goViewCountUp,
      Events.PLAYER_READY, Events.DOWNLOAD, Events.CONTENT_REQUEST,
      Events.CONTENT_START, Events.CONTENT_END, Events.CONTENT_PAUSE,
      Events.CONTENT_RESUME, Events.CONTENT_SEEK_START,
      Events.CONTENT_SEEK_END, Events.CONTENT_BUFFER_START,
      Events.CONTENT_BUFFER_END, Events.CONTENT_HEARTBEAT,
      Events.CONTENT_RENDITION_CHANGE, Events.CONTENT_ERROR,
      Events.AD_REQUEST, Events.AD_START, Events.AD_END, Events.AD_PAUSE,
      Events.AD_RESUME, Events.AD_SEEK_START, Events.AD_SEEK_END,
      Events.AD_BUFFER_START, Events.AD_BUFFER_END, Events.AD_HEARTBEAT,
      Events.AD_RENDITION_CHANGE, Events.AD_ERROR, Events.AD_BREAK_START,
      Events.AD_BREAK_END, Events.AD_QUARTILE, Events.AD_CLICK] <;>
    (repeat' split) <;>
    simp_all

/-- Running any `sendEnd`-free call sequence from a requested state keeps
the request in flight and delivers no `*_REQUEST` event. -/
theorem runOps_no_request (ops : List (Op × Nat)) :
    ∀ t : VideoTracker, t.state.isRequested = true →
    (∀ o ∈ ops, o.1.isFinish = false) →
    (runOps t ops).1.state.isRequested = true ∧
    countRequests (runOps t ops).2 = 0 := by
  induction ops with
  | nil =>
    intro t h _
    simpa [runOps, countRequests] using h
  | cons o rest ih =>
    intro t h hops
    obtain ⟨op, now⟩ := o
    have h1 := applyOp_no_request_effect t op now h
      (hops (op, now) (List.mem_cons_self _ _))
    have h2 := ih (applyOp t op now).tracker h1.1
      (fun x hx => hops x (List.mem_cons_of_mem _ hx))
    refine ⟨h2.1, ?_⟩
    have hz := h1.2
    have hz2 := h2.2
    simp only [countRequests] at hz hz2 ⊢
    show List.countP isRequestEvent
      ((applyOp t op now).events ++ (runOps (applyOp t op now).tracker rest).2) = 0
    rw [List.countP_append, hz, hz2]

/-- C1: for every call sequence, two consecutive `sendRequest` calls with no
intervening `sendEnd` emit exactly one `*_REQUEST` event (`AD_REQUEST` or
`CONTENT_REQUEST`): starting from a state with no request in flight (where
`goRequest` accepts), the first call emits the one request event, the
intervening `sendEnd`-free calls emit none, and the second call's
`goRequest` guard rejects — nothing is delivered to the sink and no side
effect is performed (the tracker is returned unchanged). -/
theorem c1_consecutive_requests_once (t : VideoTracker)
    (att1 att2 : AttributeBag) (n1 n2 : Nat) (ops : List (Op × Nat))
    (hreq : t.state.isRequested = false)
    (hops : ∀ o ∈ ops, o.1.isFinish = false) :
    countRequests ((t.sendRequest att1 n1).events
        ++ (runOps (t.sendRequest att1 n1).tracker ops).2
        ++ ((runOps (t.sendRequest att1 n1).tracker ops).1.sendRequest
            att2 n2).events) = 1 ∧
    ((runOps (t.sendRequest att1 n1).tracker ops).1.sendRequest att2 n2).tracker
      = (runOps (t.sendRequest att1 n1).tracker ops).1 ∧
    ((runOps (t.sendRequest att1 n1).tracker ops).1.sendRequest att2 n2).events
      = [] := by
  have hfirst : countRequests (t.sendRequest att1 n1).events = 1 ∧
      (t.sendRequest att1 n1).tracker.state.isRequested = true := by
    constructor <;>
      simp [VideoTracker.sendRequest, TrackerState.goRequest,
        TrackerState.goHeartbeat, hreq, countRequests, isRequestEvent,
        List.countP_cons, List.countP_nil, Events.AD_REQUEST,
        Events.CONTENT_REQUEST]
  have hmid := runOps_no_request ops (t.sendRequest att1 n1).tracker
    hfirst.2 hops
  have hgen : ∀ u : VideoTracker, u.state.isRequested = true →
      u.sendRequest att2 n2 = SendResult.noop u := by
    intro u hu
    simp [VideoTracker.sendRequest, TrackerState.goRequest, hu]
  have hsecond :
      (runOps (t.sendRequest att1 n1).tracker ops).1.sendRequest att2 n2 =
        SendResult.noop (runOps (t.sendRequest att1 n1).tracker ops).1 :=
    hgen _ hmid.1
  refine ⟨?_, ?_, ?_⟩
  · simp only [countRequests, List.countP_append] at hfirst hmid ⊢
    rw [hsecond]
    simp [SendResult.noop, hfirst.1, hmid.2]
  · rw [hsecond]
    rfl
  · rw [hsecond]
    rfl

/-- Witness for C1: a fresh content tracker, a heartbeat call in between. -/
theorem c1_consecutive_requests_once_witness :
    countRequests (((VideoTracker.init "s").sendRequest [] 1).events
        ++ (runOps ((VideoTracker.init "s").sendRequest [] 1).tracker
            [(Op.heartbeat [], 2)]).2
        ++ ((runOps ((VideoTracker.init "s").sendRequest [] 1).tracker
            [(Op.heartbeat [], 2)]).1.sendRequest [] 3).events) = 1 ∧
    ((runOps ((VideoTracker.init "s").sendRequest [] 1).tracker
        [(Op.heartbeat [], 2)]).1.sendRequest [] 3).tracker
      = (runOps ((VideoTracker.init "s").sendRequest [] 1).tracker
          [(Op.heartbeat [], 2)]).1 ∧
    ((runOps ((VideoTracker.init "s").sendRequest [] 1).tracker
        [(Op.heartbeat [], 2)]).1.sendRequest [] 3).events = [] :=
  c1_consecutive_requests_once (VideoTracker.init "s") [] [] 1 3
    [(Op.heartbeat [], 2)] rfl
    (by intro o ho; simp at ho; simp [ho, Op.isFinish])

/-- An accepted `sendBufferStart` raises the `isBuffering` sub-state and
caches into `_lastBufferType` exactly the (always string-valued)
`bufferType` it emits. -/
theorem sendBufferStart_cache (t : VideoTracker) (att : AttributeBag)
    (now : Nat)
    (hreq : t.state.isRequested = true) (hbuf : t.state.isBuffering = false) :
    (t.sendBufferStart att now).tracker.state.isBuffering = true ∧
    (t.sendBufferStart att now).tracker.lastBufferType =
      bufferTypeOf (t.sendBufferStart att now) ∧
    ∃ s : String, bufferTypeOf (t.sendBufferStart att now) = some (.str s) := by
  refine ⟨?_, ?_, ?_⟩
  · simp [VideoTracker.sendBufferStart, TrackerState.goBufferStart, hreq, hbuf]
  · simp [VideoTracker.sendBufferStart, TrackerState.goBufferStart, hreq, hbuf,
      bufferTypeOf]
  · refine ⟨TrackerState.calculateBufferType
      { t.state with isBuffering := true, timeSinceBufferBegin := Chrono.start now }
      (isInitialBuffering t.state att), ?_⟩
    simp [VideoTracker.sendBufferStart, TrackerState.goBufferStart, hreq,
      hbuf, bufferTypeOf, attGet_bufferType_build, isInitialBuffering]

/-- An accepted `sendBufferEnd` whose `_lastBufferType` cache holds a
string reports that cached value as the emitted `bufferType`. -/
theorem sendBufferEnd_uses_cache (t : VideoTracker) (att : AttributeBag)
    (now : Nat) (s : String)
    (hbuf : t.state.isBuffering = true)
    (hc : t.lastBufferType = some (.str s)) :
    bufferTypeOf (t.sendBufferEnd att now) = some (.str s) := by
  simp only [VideoTracker.sendBufferEnd, TrackerState.goBufferEnd, hbuf,
    if_true, hc]
  split <;> simp_all [bufferTypeOf, attGet_attSet_self]

/-- While buffering is open, any call that is neither `sendEnd` nor
`sendBufferEnd` keeps it open and leaves the `_lastBufferType` cache
untouched (in particular a nested `sendBufferStart` is rejected whole). -/
theorem applyOp_keeps_buffer_cache (t : VideoTracker) (op : Op) (now : Nat)
    (h : t.state.isBuffering = true)
    (hop1 : op.isFinish = false) (hop2 : op.isBufferEnd = false) :
    (applyOp t op now).tracker.state.isBuffering = true ∧
    (applyOp t op now).tracker.lastBufferType = t.lastBufferType := by
  cases op <;>
    simp_all [applyOp, Op.isFinish, Op.isBufferEnd, SendResult.noop,
      VideoTracker.sendPlayerReady, VideoTracker.sendRequest,
      VideoTracker.sendStart, VideoTracker.sendPause, VideoTracker.sendResume,
      VideoTracker.sendBufferStart, VideoTracker.sendSeekStart,
      VideoTracker.sendSeekEnd, VideoTracker.sendRenditionChanged,
      VideoTracker.sendHeartbeat, VideoTracker.sendDownload,
      VideoTracker.sendError, VideoTracker.sendAdBreakStart,
      VideoTracker.sendAdBreakEnd, VideoTracker.sendAdQuartile,
      VideoTracker.sendAdClick, VideoTracker.getRenditionShift,
      TrackerState.goPlayerReady, TrackerState.goRequest,
      TrackerState.goStart, TrackerState.goPause, TrackerState.goResume,
      TrackerState.goBufferStart, TrackerState.goSeekStart,
      TrackerState.goSeekEnd, TrackerState.goAdBreakStart,
      TrackerState.goAdBreakEnd, TrackerState.goHeartbeat,
      TrackerState.goDownload, TrackerState.goError,
      TrackerState.goRenditionChange, TrackerState.goAdQuartile,
      TrackerState.goLastAd] <;>
    (repeat' split) <;>
    simp_all

/-- Fold of `applyOp_keeps_buffer_cache` over a call sequence. -/
theorem runOps_keeps_buffer_cache (ops : List (Op × Nat)) :
    ∀ t : VideoTracker, t.state.isBuffering = true →
    (∀ o ∈ ops, o.1.isFinish = false ∧ o.1.isBufferEnd = false) →
    (runOps t ops).1.state.isBuffering = true ∧
    (runOps t ops).1.lastBufferType = t.lastBufferType := by
  induction ops with
  | nil =>
    intro t h _
    simpa [runOps] using h
  | cons o rest ih =>
    intro t h hops
    obtain ⟨op, now⟩ := o
    have hmem := hops (op, now) (List.mem_cons_self _ _)
    have h1 := applyOp_keeps_buffer_cache t op now h hmem.1 hmem.2
    have h2 := ih (applyOp t op now).tracker h1.1
      (fun x hx => hops x (List.mem_cons_of_mem _ hx))
    exact ⟨h2.1, by rw [show (runOps t ((op, now) :: rest)).1 =
      (runOps (applyOp t op now).tracker rest).1 from rfl, h2.2, h1.2]⟩

/-- C9 (implicit): for every accepted `sendBufferStart` followed by the next
accepted `sendBufferEnd` — any intervening `sendEnd`-free,
`sendBufferEnd`-free calls, among which any `sendBufferStart` is rejected —
the `bufferType` attribute of the emitted `*_BUFFER_END` event equals the
`bufferType` emitted with the matching `*_BUFFER_START` (the value cached in
`_lastBufferType` at buffer-start overrides the freshly recomputed
classification at buffer-end). -/
theorem c9_buffer_end_reuses_start_type (t : VideoTracker)
    (att1 att2 : AttributeBag) (n1 n2 : Nat) (ops : List (Op × Nat))
    (b : JsVal)
    (hreq : t.state.isRequested = true) (hbuf : t.state.isBuffering = false)
    (hops : ∀ o ∈ ops, o.1.isFinish = false ∧ o.1.isBufferEnd = false)
    (hb : bufferTypeOf (t.sendBufferStart att1 n1) = some b) :
    bufferTypeOf ((runOps (t.sendBufferStart att1 n1).tracker ops).1.sendBufferEnd
      att2 n2) = some b := by
  obtain ⟨h1, h2, s, h3⟩ := sendBufferStart_cache t att1 n1 hreq hbuf
  have hbs : b = .str s := by
    rw [hb] at h3
    exact Option.some.inj h3
  have hmid := runOps_keeps_buffer_cache ops (t.sendBufferStart att1 n1).tracker
    h1 hops
  have hcache : (runOps (t.sendBufferStart att1 n1).tracker ops).1.lastBufferType
      = some (.str s) := by
    rw [hmid.2, h2, hb, hbs]
  rw [hbs]
  exact sendBufferEnd_uses_cache _ att2 n2 s hmid.1 hcache

/-- Witness for C9: an initial buffering episode with a heartbeat in the
middle; the `BUFFER_END` still reports the `initial` classification. -/
theorem c9_buffer_end_reuses_start_type_witness :
    bufferTypeOf ((runOps (({ VideoTracker.init "s" with
        state := { TrackerState.init "s" with
          isRequested := true } }).sendBufferStart [] 1).tracker
      [(Op.heartbeat [], 2)]).1.sendBufferEnd [] 3) =
      some (.str "initial") :=
  c9_buffer_end_reuses_start_type
    { VideoTracker.init "s" with
        state := { TrackerState.init "s" with isRequested := true } }
    [] [] 1 3 [(Op.heartbeat [], 2)] (.str "initial") rfl rfl
    (by
      intro o ho
      simp at ho
      simp [ho, Op.isFinish, Op.isBufferEnd])
    (by decide)

end VideoCoreJs
